import Mathlib

/-
Verification of the `to_tie` code generator
(`utils/configuration_store/to_tie_generator.py`).

The script is a pure text generator: given one integer command-line
argument `a`, it sets `num_of_cases = a + 1`, writes a fixed C++ header,
then one `if constexpr (arity == k)` branch for every `k` in
`range(0, num_of_cases)` joined by " else ", then a final overflow branch
`else if constexpr (arity >= num_of_cases)` containing a `static_assert`,
and a closing footer.  The embedding below mirrors the Python source
line by line; C++ brace characters inside generated text are written
with the escapes \x7b and \x7d.
-/

namespace ToTieGen

/-- Placeholder member names produced by the list comprehension
`[f"p\x7bi\x7d" for i in range(1, num_of_elements + 1)]`:
the list `["p1", ..., "pk"]`. -/
def member_list (num_of_elements : Nat) : List String :=
  (List.range num_of_elements).map (fun i => "p" ++ toString (i + 1))

/-- Embedding of `generate_tuple(num_of_elements)` from the Python source:
the text of the compile-time case branch for one arity value. -/
def generate_tuple (num_of_elements : Nat) : String :=
  let members := String.intercalate (", ") (member_list num_of_elements)
  let body :=
    if num_of_elements = 0 then "return std::tie();"
    else "auto& [" ++ members ++ "] = t;\nreturn std::tie(" ++ members ++ ");\n"
  "if constexpr (arity == " ++ toString num_of_elements ++ ")\x7b\n" ++ body ++ "\n\x7d\n"

/-- The fixed file header written by `main` before the branches (verbatim,
including the trailing newline and 19 spaces of the triple-quoted literal). -/
def header : String :=
  "\n#pragma once\n#include \"aggregate_arity.hpp\"\nnamespace detail \x7b\ntemplate <typename T, std::size_t arity = aggregate_arity<std::remove_cv_t<T>>::size() - 1>\nconstexpr auto to_tie( T &t)\x7b\n                   "

/-- Opening text of the overflow branch, up to the threshold number. -/
def overflow_guard : String := "else if constexpr (arity >= "

/-- Text of the overflow branch after the threshold number. -/
def overflow_tail : String :=
  ") \x7b static_assert(false,\"Generate new to_tie function, the script is located in utils/configuration_store\");\n \x7d"

/-- Embedding of the f-string
`f'else if constexpr (arity >= \x7bnum_of_cases\x7d) ...static_assert...'`
written by `main` after the case branches. -/
def overflow_branch (num_of_cases : Int) : String :=
  overflow_guard ++ toString num_of_cases ++ overflow_tail

/-- The closing footer `"};}"` written last. -/
def footer : String := "\x7d;\x7d"

/-- Embedding of `[generate_tuple(i) for i in range(0, num_of_cases)]`.
Python's `range(0, n)` is empty for `n ≤ 0`, which `Int.toNat` captures. -/
def cases_list (num_of_cases : Int) : List String :=
  (List.range num_of_cases.toNat).map generate_tuple

/-- The full text written to `to_tie.hpp` by `main` as a function of the
internal bound `num_of_cases` (the command-line argument plus one):
header, the case branches joined by " else ", the overflow branch, footer. -/
def produce_file (num_of_cases : Int) : String :=
  header ++ String.intercalate (" else ") (cases_list num_of_cases)
    ++ overflow_branch num_of_cases ++ footer

/-- Value of a nonempty all-digit character list, read in base 10;
`none` as soon as a character is not a decimal digit or the list is empty. -/
def digits_val (acc : Nat) : List Char → Option Nat
  | [] => some acc
  | c :: cs =>
    if c.isDigit then digits_val (acc * 10 + (c.toNat - Char.toNat ('0'))) cs
    else none

/-- Model of Python's `int(s)` as used by `argparse` with `type=int`: an
optional sign followed by at least one decimal digit (surrounding
whitespace and underscore separators, which `int` also accepts, are not
modelled; no claim depends on them). -/
def parse_int (s : String) : Option Int :=
  match s.data with
  | [] => none
  | '-' :: c :: cs => (digits_val 0 (c :: cs)).map (fun n => -(n : Int))
  | '+' :: c :: cs => (digits_val 0 (c :: cs)).map (fun n => (n : Int))
  | c :: cs => if c.isDigit then (digits_val 0 (c :: cs)).map (fun n => (n : Int)) else none

/-- Model of the `argparse` front end of `main`: one positional argument
converted with `type=int`; a missing argument, a surplus argument or a
string that is not an integer makes `argparse` print a usage message and
exit with status 2 before any file is opened. -/
def parse_args (argv : List String) : Except Nat Int :=
  match argv with
  | [a] =>
    match parse_int a with
    | some n => Except.ok n
    | none => Except.error 2
  | _ => Except.error 2

/-- Embedding of `main`: parse the arguments; on success add one to the
argument, write `produce_file` of it and exit 0; on a parse failure exit
with the `argparse` status and touch no file.  The result is the pair
(exit status, contents written to `to_tie.hpp` if any). -/
def main (argv : List String) : Nat × Option String :=
  match parse_args argv with
  | Except.ok a => (0, some (produce_file (a + 1)))
  | Except.error c => (c, none)

/-- Whether `pat` is a leading piece of `s` (on character lists). -/
def leads : List Char → List Char → Bool
  | [], _ => true
  | _ :: _, [] => false
  | a :: pa, b :: pb => a == b && leads pa pb

/-- Number of positions of `s` at which `pat` starts (for nonempty `pat`
this counts the occurrences of `pat` inside `s`). -/
def occs_aux (pat : List Char) : List Char → Nat
  | [] => 0
  | c :: rest => (if leads pat (c :: rest) then 1 else 0) + occs_aux pat rest

/-- Occurrence count of the string `pat` inside the string `s`. -/
def str_occs (pat s : String) : Nat := occs_aux pat.data s.data

example : member_list 3 = [("p1"), ("p2"), ("p3")] := by decide

example : str_occs ("arity == ") (generate_tuple 2) = 1 := by decide

set_option maxRecDepth 40000

/-- C1: the claim as stated is false at argument `2`.  Since
`num_of_cases = 2 + 1 = 3` and the branches range over `range(0, 3)`,
the output written for argument `2` contains only 3 per-arity case
branches (no branch whose guard compares arity to 3) and its overflow
guard reads `arity >= 3`, never `arity >= 4`. -/
theorem C1_counterexample :
    (main [("2")]).2 = some (produce_file 3) ∧
    str_occs ("if constexpr (arity == ") (produce_file 3) = 3 ∧
    str_occs ("(arity == 3)") (produce_file 3) = 0 ∧
    str_occs ("arity >= 4") (produce_file 3) = 0 := by decide

/-- C1 (amended): invoked with positional argument `2`, the program exits 0
and the generated file contains exactly 3 per-arity case branches, one
each for k = 0, 1, 2, plus exactly one overflow branch whose guard tests
that the field count is greater than or equal to 3. -/
theorem C1_arg_two_output :
    main [("2")] = (0, some (produce_file 3)) ∧
    str_occs ("if constexpr (arity == ") (produce_file 3) = 3 ∧
    str_occs ("(arity == 0)") (produce_file 3) = 1 ∧
    str_occs ("(arity == 1)") (produce_file 3) = 1 ∧
    str_occs ("(arity == 2)") (produce_file 3) = 1 ∧
    str_occs (overflow_guard) (produce_file 3) = 1 ∧
    str_occs ("(arity >= 3)") (produce_file 3) = 1 := by decide

/-- C2: the claim as stated is false at argument `0`.  Since
`num_of_cases = 0 + 1 = 1`, the output contains a single per-arity case
branch (k = 0), no branch comparing arity to 1, and its overflow guard
reads `arity >= 1`, never `arity >= 2`. -/
theorem C2_counterexample :
    (main [("0")]).2 = some (produce_file 1) ∧
    str_occs ("if constexpr (arity == ") (produce_file 1) = 1 ∧
    str_occs ("(arity == 1)") (produce_file 1) = 0 ∧
    str_occs ("arity >= 2") (produce_file 1) = 0 := by decide

/-- C2 (amended): invoked with positional argument `0`, the program exits 0
and the generated file contains exactly 1 per-arity case branch, for
k = 0, plus exactly one overflow branch whose guard tests that the field
count is greater than or equal to 1. -/
theorem C2_arg_zero_output :
    main [("0")] = (0, some (produce_file 1)) ∧
    str_occs ("if constexpr (arity == ") (produce_file 1) = 1 ∧
    str_occs ("(arity == 0)") (produce_file 1) = 1 ∧
    str_occs (overflow_guard) (produce_file 1) = 1 ∧
    str_occs ("(arity >= 1)") (produce_file 1) = 1 := by decide

/-- C3: the file whose highest covered arity is N is the one produced with
`num_of_cases = N + 1` (command-line argument N).  It consists of the
header, then exactly the N + 1 case branches `generate_tuple k` for
k = 0, ..., N joined by " else ", then exactly one overflow branch whose
guard threshold is N + 1, then the footer — N + 2 branches in total; the
overflow branch carries exactly one compile-time `static_assert`
diagnostic. -/
theorem C3_branch_totality (N : Nat) :
    cases_list ((N : Int) + 1) = (List.range (N + 1)).map generate_tuple ∧
    (cases_list ((N : Int) + 1)).length = N + 1 ∧
    produce_file ((N : Int) + 1) =
      header ++ String.intercalate (" else ") ((List.range (N + 1)).map generate_tuple)
        ++ (overflow_guard ++ toString ((N : Int) + 1) ++ overflow_tail) ++ footer ∧
    str_occs ("static_assert(false") overflow_tail = 1 := by
  refine ⟨?_, ?_, ?_, by decide⟩
  · simp [cases_list]
  · simp [cases_list]
  · simp [produce_file, cases_list, overflow_branch]

/-- C4: for every k, the case branch emitted for k opens with the guard
`if constexpr (arity == k)`, comparing the detected arity to k; and the
header binds that `arity` template parameter to the result of the
external arity-detection facility `aggregate_arity`, so each branch guard
tests the value the facility yields for the type against its k. -/
theorem C4_branch_guard_form (k : Nat) :
    (∃ body : String,
      generate_tuple k =
        ("if constexpr (arity == " ++ toString k ++ ")\x7b\n") ++ body) ∧
    (∃ pre post : String,
      header =
        pre ++ ("std::size_t arity = aggregate_arity<std::remove_cv_t<T>>::size() - 1") ++ post) := by
  constructor
  · refine ⟨(if k = 0 then "return std::tie();"
      else "auto& [" ++ String.intercalate (", ") (member_list k) ++ "] = t;\nreturn std::tie("
        ++ String.intercalate (", ") (member_list k) ++ ");\n") ++ "\n\x7d\n", ?_⟩
    simp [generate_tuple, String.append_assoc]
  · refine ⟨("\n#pragma once\n#include \"aggregate_arity.hpp\"\nnamespace detail \x7b\ntemplate <typename T, "),
      (">\nconstexpr auto to_tie( T &t)\x7b\n                   "), ?_⟩
    decide

/-- C5: for every k ≥ 1 the emitted branch destructures the aggregate into
exactly k placeholder bindings whose i-th name (0-based) is `p(i+1)`,
i.e. `p1` through `pk` in order, and returns `std::tie` of the very same
comma-joined list of names, in the same order. -/
theorem C5_positional_fidelity (k : Nat) (h : 1 ≤ k) :
    ∃ L : List String,
      L.length = k ∧
      (∀ i : Fin L.length, L.get i = "p" ++ toString (i.val + 1)) ∧
      generate_tuple k =
        ("if constexpr (arity == " ++ toString k ++ ")\x7b\n")
          ++ ("auto& [" ++ String.intercalate (", ") L ++ "] = t;\nreturn std::tie("
            ++ String.intercalate (", ") L ++ ");\n")
          ++ ("\n\x7d\n") := by
  refine ⟨member_list k, by simp [member_list], ?_, ?_⟩
  · intro i
    simp [member_list]
  · have hk : ¬ k = 0 := by omega
    simp [generate_tuple, hk, String.append_assoc]

/-- C5 witness at k = 2. -/
theorem C5_witness :
    1 ≤ 2 ∧
    ∃ L : List String,
      L.length = 2 ∧
      (∀ i : Fin L.length, L.get i = "p" ++ toString (i.val + 1)) ∧
      generate_tuple 2 =
        ("if constexpr (arity == " ++ toString 2 ++ ")\x7b\n")
          ++ ("auto& [" ++ String.intercalate (", ") L ++ "] = t;\nreturn std::tie("
            ++ String.intercalate (", ") L ++ ");\n")
          ++ ("\n\x7d\n") :=
  ⟨by decide, C5_positional_fidelity 2 (by decide)⟩

/-- C6: whatever the bound, the first case branch of the generated list is
the fixed k = 0 branch, whose body returns the empty view `std::tie()`;
its text is a constant independent of N. -/
theorem C6_zero_case_branch (N : Nat) :
    (cases_list ((N : Int) + 1)).head? =
      some ("if constexpr (arity == 0)\x7b\nreturn std::tie();\n\x7d\n") := by
  simp [cases_list, List.range_succ_eq_map]
  decide

/-- C7: with the argument `abc` (not an integer) or with no argument at
all, the program exits with status 2 (non-zero, the standard `argparse`
usage-failure status) and no output file content is ever produced:
parsing happens before the output file is opened. -/
theorem C7_invalid_invocation :
    main [("abc")] = (2, none) ∧
    main [] = (2, none) ∧
    (2 : Nat) ≠ 0 := by decide

/-- C8: generation is deterministic — the program is a pure function of
its argument vector, so two invocations on equal argument vectors write
byte-identical output. -/
theorem C8_deterministic (argv1 argv2 : List String) (h : argv1 = argv2) :
    main argv1 = main argv2 := by rw [h]

/-- C8 witness at the concrete argument vector `["3"]`. -/
theorem C8_witness : main [("3")] = main [("3")] :=
  C8_deterministic [("3")] [("3")] rfl

/-- C9: for bounds N < M, the case-branch list generated for maximum
arity N is a strict prefix of the one generated for maximum arity M
(the shared branches being textually identical, since both lists are
literally extended by further branches), and the two overflow branches
are the same fixed text around different thresholds, N + 1 versus M + 1. -/
theorem C9_monotone_extension (N M : Nat) (h : N < M) :
    (∃ ext : List String, ext ≠ [] ∧
      cases_list ((M : Int) + 1) = cases_list ((N : Int) + 1) ++ ext) ∧
    overflow_branch ((N : Int) + 1) =
      overflow_guard ++ toString ((N : Int) + 1) ++ overflow_tail ∧
    overflow_branch ((M : Int) + 1) =
      overflow_guard ++ toString ((M : Int) + 1) ++ overflow_tail := by
  refine ⟨⟨((List.range (M - N)).map (fun j => N + 1 + j)).map generate_tuple, ?_, ?_⟩, rfl, rfl⟩
  · have hMN : M - N ≠ 0 := by omega
    simp [hMN]
  · have hM : M + 1 = (N + 1) + (M - N) := by omega
    simp only [cases_list, Int.toNat_natCast_add_one, hM, List.range_add, List.map_append,
      List.map_map]

/-- C9 witness at N = 0, M = 2. -/
theorem C9_witness :
    0 < 2 ∧
    ((∃ ext : List String, ext ≠ [] ∧
        cases_list ((2 : Nat) + (1 : Int)) = cases_list ((0 : Nat) + (1 : Int)) ++ ext) ∧
      overflow_branch ((0 : Nat) + (1 : Int)) =
        overflow_guard ++ toString ((0 : Nat) + (1 : Int)) ++ overflow_tail ∧
      overflow_branch ((2 : Nat) + (1 : Int)) =
        overflow_guard ++ toString ((2 : Nat) + (1 : Int)) ++ overflow_tail) :=
  ⟨by decide, C9_monotone_extension 0 2 (by decide)⟩

/-- C10: a negative argument is accepted, not rejected.  For any parsed
argument a ≤ -1 the program exits 0 and writes the file consisting of
the header, an empty case-branch list (Python's `range(0, a+1)` is
empty), and the overflow branch with the non-positive threshold a + 1,
followed by the footer; no validation rejects negative arguments. -/
theorem C10_negative_argument (argv : List String) (a : Int) (ha : a ≤ -1)
    (hp : parse_args argv = Except.ok a) :
    main argv = (0, some (produce_file (a + 1))) ∧
    cases_list (a + 1) = [] ∧
    produce_file (a + 1) =
      header ++ (overflow_guard ++ toString (a + 1) ++ overflow_tail) ++ footer ∧
    a + 1 ≤ 0 := by
  have hz : (a + 1).toNat = 0 := Int.toNat_of_nonpos (by omega)
  have hcl : cases_list (a + 1) = [] := by simp [cases_list, hz]
  refine ⟨?_, hcl, ?_, by omega⟩
  · simp [main, hp]
  · simp [produce_file, hcl, overflow_branch, String.intercalate]

/-- C10 witness at the concrete argument vector `["-5"]`. -/
theorem C10_witness :
    (-5 : Int) ≤ -1 ∧ parse_args [("-5")] = Except.ok (-5) ∧
    (main [("-5")] = (0, some (produce_file ((-5 : Int) + 1))) ∧
      cases_list ((-5 : Int) + 1) = [] ∧
      produce_file ((-5 : Int) + 1) =
        header ++ (overflow_guard ++ toString ((-5 : Int) + 1) ++ overflow_tail) ++ footer ∧
      (-5 : Int) + 1 ≤ 0) :=
  ⟨by decide, rfl, C10_negative_argument [("-5")] (-5) (by decide) rfl⟩

end ToTieGen
